import Mathlib

/-!
# Verification of the PERN template user-account core

Shallow embedding of the authentication & user-management core of the
repository (auth service, user service, user repository, access-control
middleware, password policy evaluator), together with theorems checking the
natural-language specification against it.

Conventions of the embedding:
* The relational store is a `List User`; each repository operation is a pure
  function from the store (and a `now : Nat` clock where the source stamps
  `new Date()`) to its result and the updated store.
* bcrypt is abstracted as a `Bcrypt` structure carrying `hash` and `compare`;
  all statements are universally quantified over it (the source never looks
  inside digests).
* A JWT is modelled as the pair of its decodable payload (`jwt.decode` result,
  `none` when unparseable) and a flag saying whether its signature verifies
  against the process-wide secret.  `jwt.decode` ignores the flag; `jwt.verify`
  would require it.
* JS string helpers (`toLowerCase`, `trim` on ASCII data) are re-implemented
  structurally so that all definitions reduce in the kernel.
-/

/-- ASCII lower-casing of one character, modelling JS `toLowerCase` on the
character range this code base manipulates. -/
def charToLower (c : Char) : Char :=
  if 65 ≤ c.toNat ∧ c.toNat ≤ 90 then Char.ofNat (c.toNat + 32) else c

/-- ASCII upper-casing of one character, modelling JS `toUpperCase`. -/
def charToUpper (c : Char) : Char :=
  if 97 ≤ c.toNat ∧ c.toNat ≤ 122 then Char.ofNat (c.toNat - 32) else c

/-- Source `s.toLowerCase()` of JS, over the UTF data of the string. -/
def toLowerStr (s : String) : String := String.mk (s.toList.map charToLower)

/-- Source `s.toUpperCase()` of JS. -/
def toUpperStr (s : String) : String := String.mk (s.toList.map charToUpper)

/-- Whitespace as trimmed by JS `trim` (ASCII part: space, tab, LF, CR). -/
def isWsp (c : Char) : Bool := c.toNat = 32 ∨ c.toNat = 9 ∨ c.toNat = 10 ∨ c.toNat = 13

/-- JS `s.trim()`: drop whitespace from both ends. -/
def trimStr (s : String) : String :=
  String.mk (((s.toList.dropWhile isWsp).reverse.dropWhile isWsp).reverse)

/-- Email normalisation used throughout the repository layer:
`email.toLowerCase().trim()`. -/
def normalizeEmail (e : String) : String := trimStr (toLowerStr e)

/-- Test whether `pat` is a prefix of some suffix of the list: plain substring
containment, as used for the weak-pattern regexes and `ILIKE %s%` search. -/
def hasSubstr (pat : List Char) : List Char → Bool
  | [] => pat.isEmpty
  | c :: rest => pat.isPrefixOf (c :: rest) || hasSubstr pat rest

/-- Substring containment on strings. -/
def containsSub (s pat : String) : Bool := hasSubstr pat.toList s.toList

/-- bcrypt abstracted: `hash plaintext rounds` and `compare candidate digest`.
The embedding threads an arbitrary implementation through the code. -/
structure Bcrypt where
  hash : String → Nat → String
  compare : String → String → Bool

/-- The `users` table row (entity `User` of `user.entity.ts`).  Timestamps and
dates are abstract `Nat` instants. -/
structure User where
  id : String
  email : String
  password : String
  firstName : String
  lastName : String
  dateOfBirth : Option Nat
  gender : Option String
  phoneNumber : Option String
  isActive : Bool
  isEmailVerified : Bool
  emailVerifiedAt : Option Nat
  lastLoginAt : Option Nat
  createdAt : Nat
  updatedAt : Nat
deriving DecidableEq, Repr

/-- Virtual property of the entity: `` `${firstName} ${lastName}`.trim() ``. -/
def User.fullName (u : User) : String := trimStr (u.firstName ++ " " ++ u.lastName)

/-- Source `user.comparePassword(candidate)`: `bcrypt.compare(candidate, this.password)`. -/
def User.comparePassword (bc : Bcrypt) (u : User) (candidate : String) : Bool :=
  bc.compare candidate u.password

/-- The outward-facing user shape (`UserResponseDto`).  Note: it has no
credential field. -/
structure UserResponseDto where
  id : String
  email : String
  firstName : String
  lastName : String
  fullName : String
  dateOfBirth : Option Nat
  gender : Option String
  phoneNumber : Option String
  isActive : Bool
  isEmailVerified : Bool
  emailVerifiedAt : Option Nat
  lastLoginAt : Option Nat
  createdAt : Nat
  updatedAt : Nat
deriving DecidableEq, Repr

/-- Listing query (`UserQueryDto`): page/limit plus filters and sort. -/
structure UserQueryDto where
  page : Int
  limit : Int
  search : Option String
  isActive : Option Bool
  gender : Option String
  sortBy : String
  sortOrder : String
deriving DecidableEq, Repr

/-- Change-password request body (`ChangePasswordDto`). -/
structure ChangePasswordDto where
  currentPassword : String
  newPassword : String
  confirmPassword : String
deriving DecidableEq, Repr

namespace UserRepository

/-- Source `findById`: `findOne({ where: { id, isActive: true } })` — excludes
inactive records and never selects the password column (the embedding keeps
the record whole; no caller of `findById` reads the credential). -/
def findById (store : List User) (id : String) : Option User :=
  store.find? (fun u => u.id == id && u.isActive)

/-- Source `findByEmail`: `findOne({ where: { email: email.toLowerCase().trim(),
isActive: true } })`. -/
def findByEmail (store : List User) (email : String) : Option User :=
  store.find? (fun u => u.email == normalizeEmail email && u.isActive)

/-- Source `findByEmailWithPassword`: same active-filtered lookup, additionally
selecting the password column (the only read path exposing the hash). -/
def findByEmailWithPassword (store : List User) (email : String) : Option User :=
  store.find? (fun u => u.email == normalizeEmail email && u.isActive)

/-- Source `softDelete`: `update({ id, isActive: true }, { isActive: false,
updatedAt: new Date() })`, returning `affected > 0` and the updated store. -/
def softDelete (now : Nat) (store : List User) (id : String) : Bool × List User :=
  (store.any (fun u => u.id == id && u.isActive),
   store.map (fun u =>
     if u.id == id && u.isActive then { u with isActive := false, updatedAt := now } else u))

/-- Source `updateLastLogin`: `update({ id }, { lastLoginAt: now, updatedAt: now })` —
note no active filter here. -/
def updateLastLogin (now : Nat) (store : List User) (id : String) : List User :=
  store.map (fun u =>
    if u.id == id then { u with lastLoginAt := some now, updatedAt := now } else u)

/-- Source `changePassword`: `update({ id, isActive: true }, { password: hashed,
updatedAt: now })`, returning `affected > 0` and the updated store. -/
def changePassword (now : Nat) (store : List User) (id : String)
    (hashedPassword : String) : Bool × List User :=
  (store.any (fun u => u.id == id && u.isActive),
   store.map (fun u =>
     if u.id == id && u.isActive then
       { u with password := hashedPassword, updatedAt := now } else u))

/-- Source `countActive`: `count({ where: { isActive: true } })`. -/
def countActive (store : List User) : Nat :=
  store.countP (fun u => u.isActive)

/-- One user matches the listing filter of `findAll` (active filter defaulting
to `true`, optional gender filter, optional case-insensitive substring search
over first name, last name and email). -/
def matchesQuery (q : UserQueryDto) (u : User) : Bool :=
  (match q.isActive with
   | some b => u.isActive == b
   | none => u.isActive) &&
  (match q.gender with
   | some g => u.gender == some g
   | none => true) &&
  (match q.search with
   | some s => containsSub (toLowerStr u.firstName) (toLowerStr s)
       || containsSub (toLowerStr u.lastName) (toLowerStr s)
       || containsSub (toLowerStr u.email) (toLowerStr s)
   | none => true)

/-- Comparator of `orderBy(user.sortBy, order)` for the sortable columns. -/
def sortLe (sortBy : String) (a b : User) : Bool :=
  if sortBy == "firstName" then decide (a.firstName ≤ b.firstName)
  else if sortBy == "lastName" then decide (a.lastName ≤ b.lastName)
  else if sortBy == "email" then decide (a.email ≤ b.email)
  else decide (a.createdAt ≤ b.createdAt)

/-- Listing `findAll`: filter, sort, paginate by `offset = (page-1)*limit`,
returning `(users, total, totalPages)` with `total` counted before pagination
and `totalPages = ceil(total/limit)`. -/
def findAll (store : List User) (q : UserQueryDto) :
    List User × Nat × Nat :=
  let filtered := store.filter (matchesQuery q)
  let le := if toUpperStr q.sortOrder == "DESC"
    then fun a b => sortLe q.sortBy b a
    else sortLe q.sortBy
  let sorted := filtered.mergeSort le
  let offset := ((q.page - 1) * q.limit).toNat
  let items := (sorted.drop offset).take q.limit.toNat
  let total := filtered.length
  (items, total, (total + q.limit.toNat - 1) / q.limit.toNat)

end UserRepository

/-- Hex digit of the `/i`-flagged UUID regex (`0-9`, `a-f`, `A-F`). -/
def isHexChar (c : Char) : Bool :=
  (48 ≤ c.toNat && c.toNat ≤ 57) || (97 ≤ c.toNat && c.toNat ≤ 102)
    || (65 ≤ c.toNat && c.toNat ≤ 70)

/-- First character of the UUID version group: `[1-5]`. -/
def isUuidVersionChar (c : Char) : Bool := 49 ≤ c.toNat && c.toNat ≤ 53

/-- First character of the UUID variant group: `[89ab]` case-insensitively. -/
def isUuidVariantChar (c : Char) : Bool :=
  c.toNat = 56 || c.toNat = 57 || c.toNat = 97 || c.toNat = 98
    || c.toNat = 65 || c.toNat = 66

/-- Character-level reading of the anchored UUID regex
`^[0-9a-f]{8}-[0-9a-f]{4}-[1-5][0-9a-f]{3}-[89ab][0-9a-f]{3}-[0-9a-f]{12}$/i`. -/
def uuidShape : List Char → Bool
  | a1 :: a2 :: a3 :: a4 :: a5 :: a6 :: a7 :: a8 :: '-' :: b1 :: b2 :: b3 :: b4 :: '-' ::
    v :: c1 :: c2 :: c3 :: '-' :: w :: d1 :: d2 :: d3 :: '-' ::
    e1 :: e2 :: e3 :: e4 :: e5 :: e6 :: e7 :: e8 :: e9 :: e10 :: e11 :: e12 :: [] =>
      [a1, a2, a3, a4, a5, a6, a7, a8, b1, b2, b3, b4, c1, c2, c3,
       d1, d2, d3, e1, e2, e3, e4, e5, e6, e7, e8, e9, e10, e11, e12].all isHexChar
      && isUuidVersionChar v && isUuidVariantChar w
  | _ => false

/-- Source `UserService.isValidUUID` (regex test on the identifier). -/
def isValidUUID (id : String) : Bool := uuidShape id.toList

namespace UserService

/-- Source `mapToResponseDto`: shape an entity into the outward DTO.  The credential
hash is not copied; `fullName` is the entity's virtual property. -/
def mapToResponseDto (u : User) : UserResponseDto :=
  { id := u.id
    email := u.email
    firstName := u.firstName
    lastName := u.lastName
    fullName := u.fullName
    dateOfBirth := u.dateOfBirth
    gender := u.gender
    phoneNumber := u.phoneNumber
    isActive := u.isActive
    isEmailVerified := u.isEmailVerified
    emailVerifiedAt := u.emailVerifiedAt
    lastLoginAt := u.lastLoginAt
    createdAt := u.createdAt
    updatedAt := u.updatedAt }

/-- Source `UserService.getUserById`: UUID-shape validation, active-filtered lookup,
DTO shaping. -/
def getUserById (store : List User) (id : String) : Except String UserResponseDto :=
  if !isValidUUID id then .error "Invalid user ID format"
  else
    match UserRepository.findById store id with
    | none => .error "User not found"
    | some u => .ok (mapToResponseDto u)

/-- Source `UserService.getAllUsers`: pagination bounds are validated before
the repository listing runs; the query's page and limit are echoed back. -/
def getAllUsers (store : List User) (q : UserQueryDto) :
    Except String (List UserResponseDto × Nat × Nat × Int × Int) :=
  if q.page < 1 then .error "Page number must be greater than 0"
  else if q.limit < 1 || 100 < q.limit then .error "Limit must be between 1 and 100"
  else
    let r := UserRepository.findAll store q
    .ok (r.1.map mapToResponseDto, r.2.1, r.2.2, q.page, q.limit)

/-- Tail of `UserService.changePassword` after its existence checks: hash the
new password with cost 12 and persist it. -/
def changePasswordRest (bc : Bcrypt) (now : Nat) (store : List User) (id : String)
    (passwordData : ChangePasswordDto) : Except String (List User) :=
  let hashed := bc.hash passwordData.newPassword 12
  let r := UserRepository.changePassword now store id hashed
  if !r.1 then .error "Failed to change password"
  else .ok r.2

/-- Source `UserService.changePassword`: UUID check, then the source's lookup dance
(`findByEmailWithPassword("")`, falling back to `findById`), then hash-and-store
of the new password.  The current password in `passwordData` is never read
(the source comments that verification is assumed done by the controller). -/
def changePassword (bc : Bcrypt) (now : Nat) (store : List User) (id : String)
    (passwordData : ChangePasswordDto) : Except String (List User) :=
  if !isValidUUID id then .error "Invalid user ID format"
  else
    match UserRepository.findByEmailWithPassword store "" with
    | none =>
      match UserRepository.findById store id with
      | none => .error "User not found"
      | some _ => changePasswordRest bc now store id passwordData
    | some _ => changePasswordRest bc now store id passwordData

/-- Source `UserService.authenticateUser`: active-filtered lookup with hash, bcrypt
comparison, then (unreachably, see the repository filter) the deactivation
check, then the last-login side effect; returns the shaped profile and the
updated store. -/
def authenticateUser (bc : Bcrypt) (now : Nat) (store : List User)
    (email password : String) : Except String (UserResponseDto × List User) :=
  match UserRepository.findByEmailWithPassword store email with
  | none => .error "Invalid email or password"
  | some u =>
    if !(u.comparePassword bc password) then .error "Invalid email or password"
    else if !u.isActive then .error "Account is deactivated"
    else .ok (mapToResponseDto u, UserRepository.updateLastLogin now store u.id)

end UserService

/-- Decoded JWT payload (`JwtPayload` of the middleware). -/
structure JwtPayload where
  userId : String
  email : String
  iat : Option Nat
  exp : Option Nat
deriving DecidableEq, Repr

/-- A bearer token as the verifier sees it: the payload `jwt.decode` can read
(`none` when the token is unparseable) and whether its signature verifies
against the process-wide secret.  `jwt.decode` never consults `sigValid`. -/
structure Token where
  decoded : Option JwtPayload
  sigValid : Bool
deriving DecidableEq, Repr

/-- Source `decodeTokenInfo`: `jwt.decode(token)` — extraction without signature or
expiry verification. -/
def decodeTokenInfo (t : Token) : Option JwtPayload := t.decoded

/-- Source `generateToken`: signs `{userId, email}` with the process secret and a 24h
TTL (86400 seconds), so the result decodes to its own payload and its
signature verifies. -/
def generateToken (userId email : String) (now : Nat) : Token :=
  { decoded := some { userId := userId, email := email, iat := some now, exp := some (now + 86400) }
    sigValid := true }

/-- Source `TokenInfoDto` returned by `AuthService.getTokenInfo` (`expiresAt` is the
JS `Date`, i.e. milliseconds). -/
structure TokenInfoDto where
  userId : String
  email : String
  iat : Option Nat
  exp : Option Nat
  isValid : Bool
  isExpired : Bool
  expiresAt : Option Nat
deriving DecidableEq, Repr

namespace AuthService

/-- Source `AuthService.getTokenInfo`: decode without verification; a token with no
`exp` claim is reported as not expired; validity is non-expiry plus non-empty
subject id and email. -/
def getTokenInfo (t : Token) (now : Nat) : TokenInfoDto :=
  match decodeTokenInfo t with
  | none =>
    { userId := "", email := "", iat := none, exp := none
      isValid := false, isExpired := true, expiresAt := none }
  | some d =>
    let isExpired := match d.exp with
      | some e => decide (e < now)
      | none => false
    { userId := d.userId, email := d.email, iat := d.iat, exp := d.exp
      isValid := !isExpired && (d.userId != "" && d.email != "")
      isExpired := isExpired
      expiresAt := d.exp.map (· * 1000) }

/-- Source `AuthService.refreshToken`: gate on `getTokenInfo` (decode-only), re-read
the user, check activity, reissue.  Errors from the user step are wrapped as
`Unable to refresh token: …`. -/
def refreshToken (now : Nat) (store : List User) (t : Token) :
    Except String (Token × String) :=
  let info := getTokenInfo t now
  if !info.isValid || info.isExpired then .error "Invalid or expired token"
  else
    match UserService.getUserById store info.userId with
    | .error msg => .error ("Unable to refresh token: " ++ msg)
    | .ok user =>
      if !user.isActive then .error "Unable to refresh token: User account is deactivated"
      else .ok (generateToken user.id user.email now, "24h")

/-- Source `AuthService.changePassword`: reconstructs the DTO field by field
and delegates to the user service's password-change path. -/
def changePassword (bc : Bcrypt) (now : Nat) (store : List User)
    (userId : String) (passwordData : ChangePasswordDto) : Except String (List User) :=
  UserService.changePassword bc now store userId
    { currentPassword := passwordData.currentPassword
      newPassword := passwordData.newPassword
      confirmPassword := passwordData.confirmPassword }

end AuthService

/-- Outcome of a middleware step: an early JSON rejection with an HTTP status,
or passing control to the next handler. -/
inductive MwOutcome where
  | reject (status : Nat) (message : String)
  | next
deriving DecidableEq, Repr

/-- The request as the ownership middleware sees it: the identity attached by
`authenticateToken` (if any) and the route parameters. -/
structure AuthedRequest where
  user : Option JwtPayload
  params : String → Option String

/-- Source `requireOwnership(userIdParam)`: 401 without an attached identity, 403 when
the path-supplied owner id differs from the token subject id, pass-through
otherwise. -/
def requireOwnership (userIdParam : String) (req : AuthedRequest) : MwOutcome :=
  match req.user with
  | none => .reject 401 "Access denied. Authentication required."
  | some u =>
    if req.params userIdParam != some u.userId then
      .reject 403 "Access denied. You can only access your own resources."
    else .next

/-- The fixed weak-substring list `/123456/, /password/, /qwerty/, /abc123/,
/admin/` of the evaluator. -/
def commonPatterns : List String := ["123456", "password", "qwerty", "abc123", "admin"]

/-- The symbol character class `[!@#$%^&*(),.?":\x7b\x7d|<>]` of the
evaluator (braces written as escapes). -/
def symbolChars : List Char := "!@#$%^&*(),.?\":\x7b\x7d|<>".toList

namespace PasswordPolicy

/-- Source `password.length >= 8`. -/
def lengthOk (p : String) : Bool := decide (8 ≤ p.length)

/-- Source `/[A-Z]/.test(password)`. -/
def hasUppercase (p : String) : Bool :=
  p.toList.any fun c => decide (65 ≤ c.toNat ∧ c.toNat ≤ 90)

/-- Source `/[a-z]/.test(password)`. -/
def hasLowercase (p : String) : Bool :=
  p.toList.any fun c => decide (97 ≤ c.toNat ∧ c.toNat ≤ 122)

/-- Source `/\d/.test(password)`. -/
def hasDigitChar (p : String) : Bool :=
  p.toList.any fun c => decide (48 ≤ c.toNat ∧ c.toNat ≤ 57)

/-- Symbol-class test of the evaluator. -/
def hasSymbolChar (p : String) : Bool :=
  p.toList.any fun c => symbolChars.contains c

/-- Source `commonPatterns.some(p => p.test(password.toLowerCase()))`. -/
def hasWeakPattern (p : String) : Bool :=
  commonPatterns.any fun pat => containsSub (toLowerStr p) pat

/-- The additive score accumulated by the five `score += 1` branches. -/
def rawScoreB (b1 b2 b3 b4 b5 : Bool) : Int :=
  (if b1 then 1 else 0) + (if b2 then 1 else 0) + (if b3 then 1 else 0)
    + (if b4 then 1 else 0) + (if b5 then 1 else 0)

/-- The score after the `score -= 2` weak-pattern penalty. -/
def penalizedScoreB (b1 b2 b3 b4 b5 w : Bool) : Int :=
  if w then rawScoreB b1 b2 b3 b4 b5 - 2 else rawScoreB b1 b2 b3 b4 b5

/-- The evaluator's working score for a given password, before clamping. -/
def penalizedScore (p : String) : Int :=
  penalizedScoreB (lengthOk p) (hasUppercase p) (hasLowercase p) (hasDigitChar p)
    (hasSymbolChar p) (hasWeakPattern p)

/-- The suggestion strings pushed along the way, in evaluation order. -/
def suggestionList (p : String) : List String :=
  (if lengthOk p then [] else ["Use at least 8 characters"]) ++
  (if hasUppercase p then [] else ["Include uppercase letters"]) ++
  (if hasLowercase p then [] else ["Include lowercase letters"]) ++
  (if hasDigitChar p then [] else ["Include numbers"]) ++
  (if hasSymbolChar p then ["Great! You\x27re using special characters"]
   else ["Consider adding special characters"]) ++
  (if hasWeakPattern p then ["Avoid common patterns like \x27123456\x27 or \x27password\x27"]
   else [])

end PasswordPolicy

/-- Result shape of `validatePasswordStrength`. -/
structure PasswordStrength where
  isValid : Bool
  score : Int
  suggestions : List String
deriving DecidableEq, Repr

/-- Source `AuthService.validatePasswordStrength`: the five additive checks, the
weak-pattern penalty, validity from the pre-clamp score and the absence of a
weak pattern, the returned score clamped to `[0,5]`, at most 3 suggestions. -/
def validatePasswordStrength (password : String) : PasswordStrength :=
  { isValid := decide (3 ≤ PasswordPolicy.penalizedScore password)
      && !PasswordPolicy.hasWeakPattern password
    score := max 0 (min 5 (PasswordPolicy.penalizedScore password))
    suggestions := (PasswordPolicy.suggestionList password).take 3 }

/-! ## Concrete instances used by witnesses and counterexample evaluations -/

/-- Concrete bcrypt instance used by witnesses: an injective tagging hash. -/
def testBcrypt : Bcrypt :=
  { hash := fun p _ => "H" ++ p, compare := fun c h => h == "H" ++ c }

/-- Concrete active user record used by witnesses. -/
def baseUser : User :=
  { id := "12345678-1234-4123-8123-123456789abc"
    email := "known@x.com"
    password := "Hsecret"
    firstName := "Ada"
    lastName := "Lovelace"
    dateOfBirth := none
    gender := none
    phoneNumber := none
    isActive := true
    isEmailVerified := false
    emailVerifiedAt := none
    lastLoginAt := none
    createdAt := 0
    updatedAt := 0 }

/-- Concrete soft-deleted user record used by witnesses. -/
def inactiveUser : User := { baseUser with email := "dead@x.com", isActive := false }

/-- Concrete change-password request whose current password is wrong. -/
def newPasswordDto : ChangePasswordDto :=
  { currentPassword := "wrong-current"
    newPassword := "NewStrongPass1"
    confirmPassword := "NewStrongPass1" }

/-- Concrete token whose payload is well-formed (subject of `baseUser`, far
future expiry) but whose signature does not verify against the process
secret. -/
def forgedToken : Token :=
  { decoded := some { userId := baseUser.id, email := baseUser.email, iat := none, exp := some 999999 }
    sigValid := false }

/-- Concrete token payload for the ownership witness. -/
def ownerPayload : JwtPayload := { userId := "A", email := "a@x.com", iat := none, exp := none }

/-- Route params resolving the id parameter to another user's id. -/
def mismatchParams : String → Option String := fun s => if s == "id" then some "B" else none

/-- Route params resolving the id parameter to the caller's own id. -/
def matchParams : String → Option String := fun s => if s == "id" then some "A" else none

/-- Concrete out-of-range listing query (page 0). -/
def badPageQuery : UserQueryDto :=
  { page := 0, limit := 10, search := none, isActive := none, gender := none
    sortBy := "createdAt", sortOrder := "desc" }

/-- Concrete well-signed token whose payload carries no expiry claim. -/
def noExpToken : Token :=
  { decoded := some { userId := baseUser.id, email := baseUser.email, iat := none, exp := none }
    sigValid := true }

/-! ## Theorems -/

/-- Auxiliary: the weak-pattern penalty turns the sequential score update into
a subtraction. -/
theorem penalizedScoreB_eq_sub (b1 b2 b3 b4 b5 w : Bool) :
    PasswordPolicy.penalizedScoreB b1 b2 b3 b4 b5 w
      = PasswordPolicy.rawScoreB b1 b2 b3 b4 b5 - (if w then 2 else 0) := by
  cases w <;> simp [PasswordPolicy.penalizedScoreB]

/-- Auxiliary: validity computed from the pre-clamp score coincides with
validity computed from the clamped score. -/
theorem clamp_valid_aux (b1 b2 b3 b4 b5 w : Bool) :
    (decide (3 ≤ PasswordPolicy.penalizedScoreB b1 b2 b3 b4 b5 w) && !w)
      = (decide (3 ≤ max 0 (min 5 (PasswordPolicy.penalizedScoreB b1 b2 b3 b4 b5 w))) && !w) := by
  cases b1 <;> cases b2 <;> cases b3 <;> cases b4 <;> cases b5 <;> cases w <;> decide

/-- C5: for every password, the evaluator's score equals the sum of +1 for
each of length ≥ 8, uppercase, lowercase, digit and symbol presence, minus 2
when a weak substring occurs case-insensitively, clamped to [0,5]; validity
holds exactly when the returned score is at least 3 and no weak substring
matches; and "Password123!" scores at least 3 yet is invalid because it
contains "password". -/
theorem C5_password_strength :
    (∀ p : String,
      (validatePasswordStrength p).score
          = max 0 (min 5 (PasswordPolicy.rawScoreB (PasswordPolicy.lengthOk p)
              (PasswordPolicy.hasUppercase p) (PasswordPolicy.hasLowercase p)
              (PasswordPolicy.hasDigitChar p) (PasswordPolicy.hasSymbolChar p)
              - (if PasswordPolicy.hasWeakPattern p then 2 else 0)))
        ∧ (validatePasswordStrength p).isValid
          = (decide (3 ≤ (validatePasswordStrength p).score)
              && !PasswordPolicy.hasWeakPattern p))
    ∧ 3 ≤ (validatePasswordStrength "Password123!").score
    ∧ (validatePasswordStrength "Password123!").isValid = false := by
  refine ⟨fun p => ⟨?_, ?_⟩, by decide, by decide⟩
  · exact congrArg (fun z => max 0 (min 5 z))
      (penalizedScoreB_eq_sub (PasswordPolicy.lengthOk p) (PasswordPolicy.hasUppercase p)
        (PasswordPolicy.hasLowercase p) (PasswordPolicy.hasDigitChar p)
        (PasswordPolicy.hasSymbolChar p) (PasswordPolicy.hasWeakPattern p))
  · exact clamp_valid_aux (PasswordPolicy.lengthOk p) (PasswordPolicy.hasUppercase p)
      (PasswordPolicy.hasLowercase p) (PasswordPolicy.hasDigitChar p)
      (PasswordPolicy.hasSymbolChar p) (PasswordPolicy.hasWeakPattern p)

/-- C4: a login with an unknown email and a login with a known active email
but a wrong password fail with the identical generic invalid-credentials
error, so the two outcomes are indistinguishable to the caller. -/
theorem C4_invalid_credentials_indistinguishable
    (bc : Bcrypt) (now : Nat) (store : List User) (e1 p1 e2 p2 : String)
    (h1 : ∀ u ∈ store, ¬(u.email = normalizeEmail e1 ∧ u.isActive = true))
    (h2 : ∃ u ∈ store, u.email = normalizeEmail e2 ∧ u.isActive = true)
    (h3 : ∀ u ∈ store, u.email = normalizeEmail e2 → u.isActive = true →
        bc.compare p2 u.password = false) :
    UserService.authenticateUser bc now store e1 p1 = .error "Invalid email or password"
    ∧ UserService.authenticateUser bc now store e2 p2 = .error "Invalid email or password" := by
  constructor
  · unfold UserService.authenticateUser UserRepository.findByEmailWithPassword
    have hn : store.find? (fun u => u.email == normalizeEmail e1 && u.isActive) = none := by
      rw [List.find?_eq_none]
      intro u hu
      simp only [Bool.and_eq_true, beq_iff_eq, not_and]
      intro hcon hact
      exact h1 u hu ⟨hcon, hact⟩
    rw [hn]
  · unfold UserService.authenticateUser UserRepository.findByEmailWithPassword
    cases hf : store.find? (fun u => u.email == normalizeEmail e2 && u.isActive) with
    | none =>
      exfalso
      obtain ⟨u, hu, he, ha⟩ := h2
      have hall := List.find?_eq_none.mp hf u hu
      simp [he, ha] at hall
    | some u =>
      have hmem := List.mem_of_find?_eq_some hf
      have hpred := List.find?_some hf
      simp only [Bool.and_eq_true, beq_iff_eq] at hpred
      have hcmp := h3 u hmem hpred.1 hpred.2
      simp [User.comparePassword, hcmp]

/-- Witness for C4 at a concrete store: a ghost email and a wrong password
both yield the generic error. -/
theorem C4_witness :
    UserService.authenticateUser testBcrypt 0 [baseUser] "ghost@x.com" "pw"
        = .error "Invalid email or password"
    ∧ UserService.authenticateUser testBcrypt 0 [baseUser] "known@x.com" "wrongpw"
        = .error "Invalid email or password" :=
  C4_invalid_credentials_indistinguishable testBcrypt 0 [baseUser] "ghost@x.com" "pw"
    "known@x.com" "wrongpw" (by decide) (by decide) (by decide)

/-- C3 (code evaluation at the failing input): for a store holding a
soft-deleted user whose stored credential matches the supplied password,
`authenticateUser` answers the generic invalid-credentials error rather than
the account-deactivated error, because `findByEmailWithPassword` filters on
`isActive = true` and so the deactivation branch never fires. -/
theorem C3_inactive_account_generic_error :
    inactiveUser.isActive = false
    ∧ testBcrypt.compare "secret" inactiveUser.password = true
    ∧ UserService.authenticateUser testBcrypt 0 [inactiveUser] "dead@x.com" "secret"
        = .error "Invalid email or password" :=
  ⟨rfl, by decide, rfl⟩

/-- C2 (code evaluation at the failing input): the change-password path
replaces the stored credential hash even though the supplied current password
does not match the stored one — no layer ever compares it. -/
theorem C2_changePassword_ignores_current_password :
    testBcrypt.compare newPasswordDto.currentPassword baseUser.password = false
    ∧ AuthService.changePassword testBcrypt 5 [baseUser] baseUser.id newPasswordDto
        = .ok [{ baseUser with password := "HNewStrongPass1", updatedAt := 5 }] :=
  ⟨by decide, rfl⟩

/-- C1 (code evaluation at the failing input): `refreshToken` reissues a fresh
token for a token whose signature does not verify against the process secret,
because its gate is `getTokenInfo`, which only decodes; full verification
never happens. -/
theorem C1_refresh_accepts_unverified_token :
    forgedToken.sigValid = false
    ∧ AuthService.refreshToken 100 [baseUser] forgedToken
        = .ok (generateToken baseUser.id baseUser.email 100, "24h") :=
  ⟨rfl, rfl⟩

/-- C6: the outward user shape is independent of the stored credential hash
(so no service-layer response exposes it — every service response is built by
`mapToResponseDto`), and its full-name field is the trimmed concatenation of
first and last name. -/
theorem C6_response_shaping (u : User) (p : String) :
    UserService.mapToResponseDto { u with password := p } = UserService.mapToResponseDto u
    ∧ (UserService.mapToResponseDto u).fullName = trimStr (u.firstName ++ " " ++ u.lastName) :=
  ⟨rfl, rfl⟩

/-- C7: soft deletion keeps the row (the store's size is unchanged and a row
with the id survives), makes `findById` and — for an email owned by the
deleted record — `findByEmail` report not-found, returns true exactly when an
active record with the id existed, and is a no-op returning false on an
already-inactive or missing id. -/
theorem C7_softDelete_spec (now : Nat) (store : List User) (id : String) :
    (UserRepository.softDelete now store id).2.length = store.length
    ∧ UserRepository.findById (UserRepository.softDelete now store id).2 id = none
    ∧ ((∃ u ∈ store, u.id = id ∧ u.isActive = true) →
        (UserRepository.softDelete now store id).1 = true
          ∧ ∃ v ∈ (UserRepository.softDelete now store id).2, v.id = id)
    ∧ ((∀ u ∈ store, u.id = id → u.isActive = false) →
        (UserRepository.softDelete now store id).1 = false
          ∧ (UserRepository.softDelete now store id).2 = store)
    ∧ (∀ e, (∀ u ∈ store, u.isActive = true → u.email = normalizeEmail e → u.id = id) →
        UserRepository.findByEmail (UserRepository.softDelete now store id).2 e = none) := by
  refine ⟨List.length_map _ _, ?_, ?_, ?_, ?_⟩
  · unfold UserRepository.softDelete UserRepository.findById
    rw [List.find?_eq_none]
    intro v hv
    obtain ⟨u, hu, rfl⟩ := List.mem_map.mp hv
    by_cases h : (u.id == id && u.isActive) = true
    · simp [h]
    · rw [if_neg h]
      exact fun hc => h hc
  · rintro ⟨u, hu, hid, hact⟩
    constructor
    · unfold UserRepository.softDelete
      exact List.any_eq_true.mpr ⟨u, hu, by simp [hid, hact]⟩
    · unfold UserRepository.softDelete
      refine ⟨{ u with isActive := false, updatedAt := now }, ?_, hid⟩
      exact List.mem_map.mpr ⟨u, hu, by simp [hid, hact]⟩
  · intro h
    constructor
    · unfold UserRepository.softDelete
      simp only [List.any_eq_false]
      intro u hu
      by_cases hid : u.id = id
      · simp [h u hu hid]
      · simp [hid]
    · unfold UserRepository.softDelete
      have hfix : ∀ u ∈ store,
          (if u.id == id && u.isActive
            then { u with isActive := false, updatedAt := now } else u) = u := by
        intro u hu
        rw [if_neg]
        intro hc
        simp only [Bool.and_eq_true, beq_iff_eq] at hc
        rw [h u hu hc.1] at hc
        exact Bool.false_ne_true hc.2
      exact (List.map_congr_left hfix).trans (List.map_id store)
  · intro e he
    unfold UserRepository.softDelete UserRepository.findByEmail
    rw [List.find?_eq_none]
    intro v hv
    obtain ⟨u, hu, rfl⟩ := List.mem_map.mp hv
    by_cases h : (u.id == id && u.isActive) = true
    · simp [h]
    · rw [if_neg h]
      intro hc
      simp only [Bool.and_eq_true, beq_iff_eq] at hc
      exact h (by simp [he u hu hc.2 hc.1, hc.2])

/-- Witness for C7 at concrete stores: deleting an active record and deleting
an already-inactive one. -/
theorem C7_witness :
    (UserRepository.softDelete 7 [baseUser] baseUser.id).1 = true
    ∧ UserRepository.findById (UserRepository.softDelete 7 [baseUser] baseUser.id).2
        baseUser.id = none
    ∧ (∃ v ∈ (UserRepository.softDelete 7 [baseUser] baseUser.id).2, v.id = baseUser.id)
    ∧ (UserRepository.softDelete 7 [inactiveUser] baseUser.id).1 = false
    ∧ (UserRepository.softDelete 7 [inactiveUser] baseUser.id).2 = [inactiveUser]
    ∧ UserRepository.findByEmail (UserRepository.softDelete 7 [baseUser] baseUser.id).2
        "known@x.com" = none := by
  obtain ⟨-, h2, h3, -, h5⟩ := C7_softDelete_spec 7 [baseUser] baseUser.id
  obtain ⟨ht, hv⟩ := h3 (by decide)
  obtain ⟨-, -, -, h4, -⟩ := C7_softDelete_spec 7 [inactiveUser] baseUser.id
  obtain ⟨hf, hunch⟩ := h4 (by decide)
  exact ⟨ht, h2, hv, hf, hunch, h5 "known@x.com" (by decide)⟩

/-- C8: with a valid token identity attached, the ownership middleware rejects
with 403 whenever the path-supplied owner id differs from the token's subject
id, and passes the request through when they agree. -/
theorem C8_requireOwnership (userIdParam : String) (payload : JwtPayload)
    (params : String → Option String) :
    (params userIdParam ≠ some payload.userId →
      requireOwnership userIdParam { user := some payload, params := params }
        = .reject 403 "Access denied. You can only access your own resources.")
    ∧ (params userIdParam = some payload.userId →
      requireOwnership userIdParam { user := some payload, params := params } = .next) := by
  constructor
  · intro h
    simp [requireOwnership, bne_iff_ne, h]
  · intro h
    simp [requireOwnership, h]

/-- Witness for C8 at concrete requests: a foreign path id is rejected with
403, the caller's own id passes through. -/
theorem C8_witness :
    requireOwnership "id" { user := some ownerPayload, params := mismatchParams }
        = .reject 403 "Access denied. You can only access your own resources."
    ∧ requireOwnership "id" { user := some ownerPayload, params := matchParams } = .next :=
  ⟨(C8_requireOwnership "id" ownerPayload mismatchParams).1 (by decide),
   (C8_requireOwnership "id" ownerPayload matchParams).2 (by decide)⟩

/-- C9: a listing query with page < 1 or page size outside 1..100 fails with a
validation error whose value does not depend on the store at all — so the
failure precedes any listing work and no clamping into range ever happens. -/
theorem C9_getAllUsers_validation (store : List User) (q : UserQueryDto)
    (h : q.page < 1 ∨ q.limit < 1 ∨ 100 < q.limit) :
    ∃ msg, UserService.getAllUsers store q = .error msg
      ∧ ∀ store₂ : List User, UserService.getAllUsers store₂ q = .error msg := by
  by_cases hp : q.page < 1
  · exact ⟨"Page number must be greater than 0", by simp [UserService.getAllUsers, hp],
      fun s => by simp [UserService.getAllUsers, hp]⟩
  · have hl : q.limit < 1 ∨ 100 < q.limit := by tauto
    refine ⟨"Limit must be between 1 and 100", ?_, fun s => ?_⟩ <;>
      rcases hl with hl | hl <;> simp [UserService.getAllUsers, hp, hl]

/-- Witness for C9 at a concrete query with page 0. -/
theorem C9_witness :
    ∃ msg, UserService.getAllUsers [] badPageQuery = .error msg
      ∧ ∀ store₂ : List User, UserService.getAllUsers store₂ badPageQuery = .error msg :=
  C9_getAllUsers_validation [] badPageQuery (Or.inl (by decide))

/-- C10: a decodable token whose payload has a non-empty subject id and email
but no expiry claim is reported not expired and valid by `getTokenInfo`, and
`refreshToken` accepts it and reissues a fresh token whenever the subject user
is found active. -/
theorem C10_no_exp_token_never_expires (t : Token) (d : JwtPayload) (now : Nat)
    (hd : t.decoded = some d) (hexp : d.exp = none) (hu : d.userId ≠ "") (he : d.email ≠ "") :
    (AuthService.getTokenInfo t now).isExpired = false
    ∧ (AuthService.getTokenInfo t now).isValid = true
    ∧ ∀ (store : List User) (u : User), isValidUUID d.userId = true →
        UserRepository.findById store d.userId = some u →
        AuthService.refreshToken now store t = .ok (generateToken u.id u.email now, "24h") := by
  have hinfo : AuthService.getTokenInfo t now =
      { userId := d.userId, email := d.email, iat := d.iat, exp := none
        isValid := true, isExpired := false, expiresAt := none } := by
    simp [AuthService.getTokenInfo, decodeTokenInfo, hd, hexp, hu, he]
  refine ⟨by rw [hinfo], by rw [hinfo], ?_⟩
  intro store u huuid hfind
  have hact : u.isActive = true := by
    have hp := List.find?_some hfind
    simp only [Bool.and_eq_true, beq_iff_eq] at hp
    exact hp.2
  simp [AuthService.refreshToken, hinfo, UserService.getUserById, huuid, hfind,
    UserService.mapToResponseDto, hact]

/-- Witness for C10 at a concrete token without an expiry claim. -/
theorem C10_witness :
    (AuthService.getTokenInfo noExpToken 500).isExpired = false
    ∧ (AuthService.getTokenInfo noExpToken 500).isValid = true
    ∧ AuthService.refreshToken 500 [baseUser] noExpToken
        = .ok (generateToken baseUser.id baseUser.email 500, "24h") := by
  obtain ⟨h1, h2, h3⟩ := C10_no_exp_token_never_expires noExpToken
    { userId := baseUser.id, email := baseUser.email, iat := none, exp := none } 500
    rfl rfl (by decide) (by decide)
  exact ⟨h1, h2, h3 [baseUser] baseUser (by decide) (by decide)⟩
